import Mathlib

/-!
# Verification of the document-workflow engine

Shallow embedding of the core of `cimulink/ai-workflow-engine`:
the `WorkflowState` record, the node functions and the validation
router of `src/engine.py` (class `DocumentProcessor`), the
`run_workflow` / `resume_workflow` drivers, and the backend
validators of `src/backend/ag_ui_langgraph_processor.py` and
`src/backend/ag_ui_server.py`.

Python dictionaries of extracted fields are embedded as association
lists over a scalar JSON value type `PyVal`; Python exceptions are
embedded as `Except String`; Python `float` values arising from JSON
numbers are embedded as `Rat`.  `datetime.now()` is passed in as an
explicit timestamp argument.
-/

namespace WorkflowEngine

/-- Scalar JSON value, as produced by parsing the LLM extraction output.
`none` is Python `None` (JSON `null`). -/
inductive PyVal where
  | none : PyVal
  | str : String → PyVal
  | num : Rat → PyVal
  | bool : Bool → PyVal
deriving DecidableEq, Repr

/-- An extracted-data dictionary: association list in insertion order. -/
abbrev PyDict := List (String × PyVal)

deriving instance DecidableEq for Except

/-- Python truthiness of a scalar value (`bool(v)`). -/
def truthy : PyVal → Bool
  | .none => false
  | .str s => !(s == "")
  | .num q => !(q == 0)
  | .bool b => b

/-- `d.get(k)` — value if the key is present, else Python `None`. -/
def getOrNone (d : PyDict) (k : String) : PyVal :=
  (d.lookup k).getD PyVal.none

/-- `d.get(k, "")` — value if the key is present, else the empty string. -/
def getOrEmpty (d : PyDict) (k : String) : PyVal :=
  (d.lookup k).getD (PyVal.str "")

/-- `s.lower()` (the program only manipulates ASCII reason strings and
field values, where Python and `Char.toLower` agree). -/
def pyToLower (s : String) : String := ⟨s.data.map Char.toLower⟩

/-- `v.lower()`: succeeds only on strings; on any other value Python raises
`AttributeError`, embedded as `Except.error`. -/
def pyLower : PyVal → Except String String
  | .str s => .ok (pyToLower s)
  | _ => .error "AttributeError: object has no attribute lower"

/-- `needle in hay` on character lists: the needle is a prefix of some
suffix of the haystack. -/
def containsSub (hay needle : List Char) : Bool :=
  needle.isPrefixOf hay ||
    match hay with
    | [] => false
    | _ :: rest => containsSub rest needle

/-- `needle in hay` for Python strings (substring test). -/
def strContains (hay needle : String) : Bool :=
  containsSub hay.data needle.data

/-- Numeric value of a digit character. -/
def digitVal (c : Char) : Nat := c.toNat - 48

/-- Digits to the natural number they denote (most significant first). -/
def digitsToNat (cs : List Char) : Nat :=
  cs.foldl (fun n c => 10 * n + digitVal c) 0

/-- All characters are decimal digits. -/
def allDigits (cs : List Char) : Bool := cs.all Char.isDigit

/-- Unsigned decimal mantissa: digits with at most one decimal point and
at least one digit (`"12"`, `"12."`, `"12.5"`, `".5"`). -/
def parseMantissa (cs : List Char) : Option Rat :=
  match cs.splitOn '.' with
  | [ip] =>
    if ip ≠ [] ∧ allDigits ip then some (digitsToNat ip) else Option.none
  | [ip, fp] =>
    if (ip ≠ [] ∨ fp ≠ []) ∧ allDigits ip ∧ allDigits fp then
      some ((digitsToNat (ip ++ fp) : Rat) / (10 : Rat) ^ fp.length)
    else Option.none
  | _ => Option.none

/-- Signed decimal exponent. -/
def parseExp (cs : List Char) : Option Int :=
  match cs with
  | '+' :: ds =>
    if ds ≠ [] ∧ allDigits ds then some (digitsToNat ds : Int) else Option.none
  | '-' :: ds =>
    if ds ≠ [] ∧ allDigits ds then some (-(digitsToNat ds : Int)) else Option.none
  | ds =>
    if ds ≠ [] ∧ allDigits ds then some (digitsToNat ds : Int) else Option.none

/-- Mantissa with optional exponent part (`"1.5e3"`). -/
def parseMantissaExp (body : List Char) : Option Rat :=
  match body.splitOn 'e' with
  | [m] => parseMantissa m
  | [m, ex] => do
    let mv ← parseMantissa m
    let e ← parseExp ex
    some (mv * (10 : Rat) ^ e)
  | _ => Option.none

/-- Strip leading and trailing whitespace from a character list. -/
def trimChars (cs : List Char) : List Char :=
  ((cs.dropWhile Char.isWhitespace).reverse.dropWhile Char.isWhitespace).reverse

/-- Embedding of Python `float(s)` on finite decimal literals: optional
surrounding whitespace, optional sign, digits with optional decimal point,
optional exponent.  (The special literals `inf`/`nan` and underscore
separators are outside the fragment this program manipulates.) -/
def pyFloatParse (s : String) : Option Rat :=
  match trimChars (s.data.map Char.toLower) with
  | '+' :: rest => parseMantissaExp rest
  | '-' :: rest => (parseMantissaExp rest).map Neg.neg
  | rest => parseMantissaExp rest

/-- `str(amount).replace("$", "").replace(",", "")`: removing every
occurrence of the single characters `$` and `,`. -/
def stripCurrency (s : String) : String :=
  ⟨s.data.filter fun c => !(c == '$' || c == ',')⟩

/-- `float(str(amount).replace("$", "").replace(",", ""))`, as an `Option`:
`none` when Python would raise `ValueError`.  For a numeric value the
`str`/`float` round trip is the identity, so it is embedded directly;
`str(None) = "None"` and `str(True)/str(False)` never parse as floats. -/
def parseAmount : PyVal → Option Rat
  | .num q => some q
  | .str s => pyFloatParse (stripCurrency s)
  | .none => Option.none
  | .bool _ => Option.none

/-- `"; ".join(reasons)`. -/
def joinSemicolon : List String → String
  | [] => ""
  | [r] => r
  | r :: rs => r ++ "; " ++ joinSemicolon rs

/-- `WorkflowState` (`src/engine.py`, TypedDict). -/
structure WorkflowState where
  id : String
  content : String
  status : String
  extracted_data : Option PyDict
  workflow_history : List String
  reason_for_review : Option String
  created_at : String
  updated_at : String
deriving DecidableEq, Repr

/-- `extracted_data` is missing (`None`), empty, or carries the `"error"`
marker: `not extracted_data or "error" in extracted_data`. -/
def dataInvalid : Option PyDict → Bool
  | Option.none => true
  | some d => d.isEmpty || (d.lookup "error").isSome

/-- Invoice rule family of `DocumentProcessor.validation_router`
(`src/engine.py:169-202`): vendor-name check, invoice-ID check, then the
amount-threshold check guarded by `if amount:`, with `ValueError`/`TypeError`
from the float conversion caught and turned into the invalid-format reason. -/
def invoiceReasons (d : PyDict) : List String :=
  (if truthy (getOrNone d "vendor_name") then [] else ["Missing vendor name"]) ++
  (if truthy (getOrNone d "invoice_id") then [] else ["Missing invoice ID"]) ++
  (let amount := getOrNone d "total_amount"
   if truthy amount then
     match parseAmount amount with
     | some q => if q ≤ 1000 then [] else ["Amount exceeds $1000 threshold"]
     | Option.none => ["Invalid amount format"]
   else [])

/-- Support-ticket rule family of `DocumentProcessor.validation_router`
(`src/engine.py:205-222`).  `extracted_data.get("sentiment", "").lower()`
raises `AttributeError` on a non-string value (e.g. `null`), hence `Except`. -/
def ticketReasons (d : PyDict) : Except String (List String) := do
  let sentiment ← pyLower (getOrEmpty d "sentiment")
  let topic ← pyLower (getOrEmpty d "topic")
  pure ((if sentiment == "irate" then ["Customer sentiment is irate"] else []) ++
        (if strContains topic "security" || strContains topic "vulnerability" then
           ["Security-related issue"] else []))

/-- Generic fallback of `DocumentProcessor.validation_router`
(`src/engine.py:225-237`): every `None`/`""` field is a reason. -/
def genericReasons (d : PyDict) : List String :=
  d.filterMap fun kv =>
    if kv.2 = PyVal.none ∨ kv.2 = PyVal.str "" then
      some ("Missing or empty field: " ++ kv.1)
    else Option.none

/-- The reasons list computed by `DocumentProcessor.validation_router`
(`src/engine.py:146-251`): the short-circuit on missing/error data, then
exactly one rule family selected by key presence. -/
def routerReasons (ed : Option PyDict) : Except String (List String) :=
  if dataInvalid ed then .ok ["Missing or invalid data"]
  else
    match ed with
    | Option.none => .ok ["Missing or invalid data"]
    | some d =>
      if (d.lookup "total_amount").isSome then .ok (invoiceReasons d)
      else if (d.lookup "sentiment").isSome then ticketReasons d
      else .ok (genericReasons d)

/-- The routing decision of `DocumentProcessor.validation_router`: the early
missing-data return yields `"await_human_review"` with a nonempty reasons
list, and the final branch returns `"await_human_review"` iff `reasons` is
nonempty, so the decision is `"finalize"` exactly when the reasons list is
empty. -/
def routerDecision (ed : Option PyDict) : Except String String :=
  (routerReasons ed).map fun rs =>
    if rs.isEmpty then "finalize" else "await_human_review"

/-- `DocumentProcessor.validation_router` as the state-level function the
graph calls: it reads `state.get("extracted_data", {})` and performs no
write to the state, so the post-state it leaves behind is the input state. -/
def validation_router (s : WorkflowState) : Except String (String × WorkflowState) :=
  (routerDecision s.extracted_data).map fun dec => (dec, s)

/-- `DocumentProcessor.intake_node` (`src/engine.py:45-63`). -/
def intake_node (s : WorkflowState) (t : String) : WorkflowState :=
  { s with status := "processing",
           workflow_history := s.workflow_history ++ ["Document received at " ++ t],
           updated_at := t }

/-- Outcome of the external extraction capability (the LLM call of
`DocumentProcessor.extract_data_node`): a parsed JSON object, output from
which no JSON object could be recovered, or a raised exception. -/
inductive ExtractionOutcome where
  | parsed : PyDict → ExtractionOutcome
  | unparsable : ExtractionOutcome
  | exception : String → ExtractionOutcome
deriving DecidableEq, Repr

/-- `DocumentProcessor.extract_data_node` (`src/engine.py:65-144`),
parameterised by the extraction outcome.  Unparsable output stores the
`{"error": ...}` marker and continues normally; a raised exception stores
the marker, appends the failure history entry and sets `status = "error"`
(and, per the source, does not touch `updated_at`). -/
def extract_data_node (s : WorkflowState) (outcome : ExtractionOutcome)
    (t : String) : WorkflowState :=
  match outcome with
  | .parsed d =>
    { s with extracted_data := some d,
             workflow_history := s.workflow_history ++ ["Data extracted at " ++ t],
             updated_at := t }
  | .unparsable =>
    { s with extracted_data := some [("error", .str "Failed to parse LLM response as JSON")],
             workflow_history := s.workflow_history ++ ["Data extracted at " ++ t],
             updated_at := t }
  | .exception e =>
    { s with extracted_data := some [("error", .str ("Error during extraction: " ++ e))],
             workflow_history := s.workflow_history ++
               ["Extraction failed at " ++ t ++ ": Error during extraction: " ++ e],
             status := "error" }

/-- The reasons recomputed by `DocumentProcessor.await_human_review_node`
(`src/engine.py:253-289`).  Unlike the router, its invoice amount check
`float(str(extracted_data["total_amount"]).replace("$","").replace(",","")) > 1000`
is not wrapped in `try`/`except`, so an unparsable truthy amount raises
`ValueError` out of the node. -/
def awaitReasons (ed : Option PyDict) : Except String (List String) :=
  if dataInvalid ed then .ok ["Missing or invalid extracted data"]
  else
    match ed with
    | Option.none => .ok ["Missing or invalid extracted data"]
    | some d =>
      if (d.lookup "total_amount").isSome then
        let base :=
          (if truthy (getOrNone d "vendor_name") then [] else ["Missing vendor name"]) ++
          (if truthy (getOrNone d "invoice_id") then [] else ["Missing invoice ID"])
        let amount := getOrNone d "total_amount"
        if truthy amount then
          match parseAmount amount with
          | some q => .ok (base ++ if 1000 < q then ["Amount exceeds $1000 threshold"] else [])
          | Option.none => .error "ValueError: could not convert string to float"
        else .ok base
      else if (d.lookup "sentiment").isSome then ticketReasons d
      else .ok (genericReasons d)

/-- `DocumentProcessor.await_human_review_node` (`src/engine.py:253-300`):
recomputes the reasons, sets `pending_review`, records the reason text and
appends one history entry.  Execution is interrupted after this node. -/
def await_human_review_node (s : WorkflowState) (t : String) :
    Except String WorkflowState :=
  (awaitReasons s.extracted_data).map fun rs =>
    let reason_text := if rs.isEmpty then "Unknown validation issue"
                       else joinSemicolon rs
    { s with status := "pending_review",
             reason_for_review := some reason_text,
             workflow_history := s.workflow_history ++
               ["Workflow paused for human review at " ++ t ++ ": " ++ reason_text],
             updated_at := t }

/-- `DocumentProcessor.finalize_node` (`src/engine.py:302-321`); the JSON
dump to `output_<id>.json` is a side effect outside the state model. -/
def finalize_node (s : WorkflowState) (t : String) : WorkflowState :=
  { s with status := "finalized",
           workflow_history := s.workflow_history ++ ["Workflow finalized at " ++ t],
           updated_at := t }

/-- The initial state built by `run_workflow` (`src/engine.py:414-423`). -/
def initialState (id content t : String) : WorkflowState :=
  { id := id, content := content, status := "received",
    extracted_data := Option.none, workflow_history := [],
    reason_for_review := Option.none, created_at := t, updated_at := t }

/-- One fresh run of the compiled graph (`run_workflow`, `src/engine.py:387-468`)
with `interrupt_after=["await_human_review"]`: intake → extract_data →
conditional edge by `validation_router` → `finalize` (terminal) or
`await_human_review` (interrupted).  A Python exception escaping a node or
the router is an `Except.error`. -/
def runFromOutcome (id content : String) (outcome : ExtractionOutcome)
    (t1 t2 t3 t4 : String) : Except String WorkflowState :=
  let s1 := intake_node (initialState id content t1) t2
  let s2 := extract_data_node s1 outcome t3
  match routerDecision s2.extracted_data with
  | .error e => .error e
  | .ok dec =>
    if dec == "finalize" then .ok (finalize_node s2 t4)
    else await_human_review_node s2 t4

/-- Where a checkpointed run is paused: `afterAwait` = interrupted after
`await_human_review` (the conditional edge out of it is next), `done` =
the graph reached `END`, nothing left to execute. -/
inductive RunPoint where
  | afterAwait : RunPoint
  | done : RunPoint
deriving DecidableEq, Repr

/-- Python `dict.update`: existing keys are overwritten in place, new keys
are appended in the update's order. -/
def dictUpdate (d u : PyDict) : PyDict :=
  (d.map fun kv =>
    match u.lookup kv.1 with
    | some v => (kv.1, v)
    | Option.none => kv) ++
  u.filter fun kv => (d.lookup kv.1).isNone

/-- The correction merge of `resume_workflow` (`src/engine.py:491-502`):
shallow `dict.update` into `extracted_data` when it is a dict, one history
entry, fresh `updated_at`, then `app.update_state` persists the result. -/
def mergeCorrections (s : WorkflowState) (u : PyDict) (t : String) : WorkflowState :=
  { s with
    extracted_data := (s.extracted_data).map fun d => dictUpdate d u,
    workflow_history := s.workflow_history ++ ["Human review completed at " ++ t],
    updated_at := t }

/-- `resume_workflow` (`src/engine.py:470-525`) over an explicit checkpoint
store: `cps` is the run's append-only checkpoint list (last = latest, per
the checkpoint-store contract `app.get_state` is modelled as `none`/empty
when no checkpoint exists for the `run_id`), `point` is where the run is
paused.  Returns the checkpoint list and point after the call together with
the state handed back to the caller (`none` = the "error" return `None`;
every exception inside the function is caught and turned into it).
With corrections, a new checkpoint is written by `app.update_state`;
resuming from `afterAwait` evaluates the conditional edge
(`validation_router`) and runs `finalize` or `await_human_review` again,
checkpointing the node's result; on a `done` run `app.stream(None, ...)`
has nothing left to execute and the latest state is returned. -/
def resume_workflow (cps : List WorkflowState) (point : RunPoint)
    (updated : Option PyDict) (t t2 : String) :
    List WorkflowState × RunPoint × Option WorkflowState :=
  match cps.getLast? with
  | Option.none => (cps, point, Option.none)
  | some s =>
    let merged := match updated with
      | some u => let su := mergeCorrections s u t; (cps ++ [su], su)
      | Option.none => (cps, s)
    let cps1 := merged.1
    let s1 := merged.2
    match point with
    | .done => (cps1, .done, some s1)
    | .afterAwait =>
      match routerDecision s1.extracted_data with
      | .error _ => (cps1, .afterAwait, Option.none)
      | .ok dec =>
        if dec == "finalize" then
          let sf := finalize_node s1 t2
          (cps1 ++ [sf], .done, some sf)
        else
          match await_human_review_node s1 t2 with
          | .ok sa => (cps1 ++ [sa], .afterAwait, some sa)
          | .error _ => (cps1, .afterAwait, Option.none)

/-- Generic fallback of `AGUIDocumentProcessor.validation_router`
(`src/backend/ag_ui_langgraph_processor.py:296-299`); its reason text
differs from the engine's (`"Missing field: ..."`). -/
def aguiGenericReasons (d : PyDict) : List String :=
  d.filterMap fun kv =>
    if kv.2 = PyVal.none ∨ kv.2 = PyVal.str "" then
      some ("Missing field: " ++ kv.1)
    else Option.none

/-- `AGUIDocumentProcessor.validation_router`
(`src/backend/ag_ui_langgraph_processor.py:255-307`): same short-circuit,
same invoice and ticket rule families as the engine router (identical code,
including the unguarded `.lower()` calls), different generic reason text. -/
def aguiValidationRouter (ed : Option PyDict) : Except String String :=
  if dataInvalid ed then .ok "await_human_review"
  else
    match ed with
    | Option.none => .ok "await_human_review"
    | some d =>
      let reasonsE : Except String (List String) :=
        if (d.lookup "total_amount").isSome then .ok (invoiceReasons d)
        else if (d.lookup "sentiment").isSome then ticketReasons d
        else .ok (aguiGenericReasons d)
      reasonsE.map fun rs => if rs.isEmpty then "finalize" else "await_human_review"

/-- `DocumentExtractedData` (`src/shared/types.py`): a pydantic model whose
fields are all optional with default `None`. -/
structure DocumentExtractedData where
  vendor_name : Option String := Option.none
  invoice_id : Option String := Option.none
  due_date : Option String := Option.none
  total_amount : Option Rat := Option.none
  customer_name : Option String := Option.none
  email : Option String := Option.none
  topic : Option String := Option.none
  sentiment : Option String := Option.none
  urgency : Option String := Option.none
  document_type : Option String := Option.none
  confidence_score : Option Rat := Option.none
  extraction_timestamp : Option String := Option.none
deriving DecidableEq, Repr

/-- An optional string field as it appears in a `model_dump()`. -/
def dumpStr : Option String → PyVal
  | some s => .str s
  | Option.none => .none

/-- An optional float field as it appears in a `model_dump()`. -/
def dumpNum : Option Rat → PyVal
  | some q => .num q
  | Option.none => .none

/-- `DocumentExtractedData.model_dump()`: every field key is present, unset
fields dump as `None`, in field-declaration order. -/
def modelDump (m : DocumentExtractedData) : PyDict :=
  [("vendor_name", dumpStr m.vendor_name),
   ("invoice_id", dumpStr m.invoice_id),
   ("due_date", dumpStr m.due_date),
   ("total_amount", dumpNum m.total_amount),
   ("customer_name", dumpStr m.customer_name),
   ("email", dumpStr m.email),
   ("topic", dumpStr m.topic),
   ("sentiment", dumpStr m.sentiment),
   ("urgency", dumpStr m.urgency),
   ("document_type", dumpStr m.document_type),
   ("confidence_score", dumpNum m.confidence_score),
   ("extraction_timestamp", dumpStr m.extraction_timestamp)]

/-- `ValidationResult` (`src/shared/types.py`). -/
structure ValidationResult where
  is_valid : Bool
  needs_review : Bool
  reasons : List String
  auto_approved : Bool
  validation_rules_applied : List String
deriving DecidableEq, Repr

/-- `DocumentWorkflowAgent.validate_data` (`src/backend/ag_ui_server.py:270-327`):
document-type inference on the `model_dump()` of the pydantic model, with
the invoice branch selected by `get("total_amount") is not None` (a value
test, not a key test) and the ticket branch by a truthy `sentiment`;
`get("topic", "").lower()` still raises on a `None` topic. -/
def validate_data (ed : Option DocumentExtractedData) : Except String ValidationResult :=
  match ed with
  | Option.none =>
    .ok { is_valid := false, needs_review := true, reasons := ["No data extracted"],
          auto_approved := false, validation_rules_applied := ["data_presence_check"] }
  | some m =>
    let d := modelDump m
    let reasonsRules : Except String (List String × List String) :=
      if getOrNone d "total_amount" ≠ PyVal.none then
        let rs :=
          (if truthy (getOrNone d "vendor_name") then [] else ["Missing vendor name"]) ++
          (if truthy (getOrNone d "invoice_id") then [] else ["Missing invoice ID"]) ++
          (match getOrNone d "total_amount" with
           | .num q => if truthy (.num q) && 1000 < q then ["Amount exceeds $1000 threshold"] else []
           | _ => [])
        .ok (rs, ["invoice_validation"])
      else if truthy (getOrNone d "sentiment") then do
        let sentiment ← pyLower (getOrEmpty d "sentiment")
        let topic ← pyLower (getOrEmpty d "topic")
        pure ((if sentiment == "irate" then ["Customer sentiment is irate"] else []) ++
              (if strContains topic "security" || strContains topic "vulnerability" then
                 ["Security-related issue"] else []),
              ["support_ticket_validation"])
      else
        .ok (d.filterMap (fun kv =>
               if kv.2 = PyVal.none ∨ kv.2 = PyVal.str "" then
                 some ("Missing field: " ++ kv.1)
               else Option.none),
             ["generic_validation"])
    reasonsRules.map fun pr =>
      let needs := !pr.1.isEmpty
      { is_valid := !needs, needs_review := needs, reasons := pr.1,
        auto_approved := !needs, validation_rules_applied := pr.2 }

/-- Example state: a support ticket mid-processing, before review. -/
def exTicketProcessing : WorkflowState :=
  { id := "w5", content := "TICKET", status := "processing",
    extracted_data := some [("sentiment", PyVal.str "Irate")],
    workflow_history := ["h0"], reason_for_review := Option.none,
    created_at := "t0", updated_at := "t0" }

/-- Example state: the same ticket suspended in review (the result of
`await_human_review_node exTicketProcessing "ta"`). -/
def exTicketSuspended : WorkflowState :=
  { id := "w5", content := "TICKET", status := "pending_review",
    extracted_data := some [("sentiment", PyVal.str "Irate")],
    workflow_history := ["h0",
      "Workflow paused for human review at ta: Customer sentiment is irate"],
    reason_for_review := some "Customer sentiment is irate",
    created_at := "t0", updated_at := "ta" }

/-- Example state: a run whose graph has completed with `finalized` status. -/
def exFinalized : WorkflowState :=
  { id := "w4", content := "DOC", status := "finalized",
    extracted_data := some [("total_amount", PyVal.num 500)],
    workflow_history := ["h1"], reason_for_review := Option.none,
    created_at := "t0", updated_at := "t0" }

/-- The routing decision is `"finalize"` exactly when the computed reasons
list is empty (shared helper). -/
theorem routerDecision_finalize_iff (ed : Option PyDict) (rs : List String)
    (hr : routerReasons ed = .ok rs) :
    routerDecision ed = .ok "finalize" ↔ rs = [] := by
  simp only [routerDecision, hr, Except.map]
  cases rs <;> simp

/-- C1: for every extracted_data on which the validation router computes an
empty reasons list the decision is `"finalize"` (and in general the
decision is `"finalize"` iff the reasons list is empty), and a fresh run
whose validation reasons list is empty ends with `status = "finalized"`
and `reason_for_review` never set (still `none`). -/
theorem router_finalize_iff_no_reasons_and_clean_run
    (id content t1 t2 t3 t4 : String) (outcome : ExtractionOutcome)
    (hempty : routerReasons
      ((extract_data_node (intake_node (initialState id content t1) t2) outcome t3).extracted_data)
      = .ok []) :
    (∀ ed rs, routerReasons ed = .ok rs → (routerDecision ed = .ok "finalize" ↔ rs = [])) ∧
    ∃ sf, runFromOutcome id content outcome t1 t2 t3 t4 = .ok sf ∧
      sf.status = "finalized" ∧ sf.reason_for_review = Option.none := by
  have hdec : routerDecision
      ((extract_data_node (intake_node (initialState id content t1) t2) outcome t3).extracted_data)
      = .ok "finalize" := by
    simp [routerDecision, hempty, Except.map]
  refine ⟨fun ed rs hr => routerDecision_finalize_iff ed rs hr,
    finalize_node (extract_data_node (intake_node (initialState id content t1) t2) outcome t3) t4,
    ?_, ?_, ?_⟩
  · simp only [runFromOutcome]
    rw [hdec]
    simp
  · simp [finalize_node]
  · cases outcome <;>
      simp [finalize_node, extract_data_node, intake_node, initialState]

/-- Witness for C1: a complete `$800` invoice finalizes with no review reason. -/
theorem router_finalize_iff_no_reasons_and_clean_run_witness :
    ∃ sf, runFromOutcome "doc-1" "INVOICE"
        (.parsed [("total_amount", .str "$800"), ("vendor_name", .str "Acme"),
                  ("invoice_id", .str "INV-1")]) "t1" "t2" "t3" "t4" = .ok sf ∧
      sf.status = "finalized" ∧ sf.reason_for_review = Option.none :=
  (router_finalize_iff_no_reasons_and_clean_run "doc-1" "INVOICE" "t1" "t2" "t3" "t4"
    (.parsed [("total_amount", .str "$800"), ("vendor_name", .str "Acme"),
              ("invoice_id", .str "INV-1")]) (by rfl)).2

/-- A lookup hit means the dictionary is nonempty (shared helper). -/
theorem isEmpty_false_of_lookup_isSome (d : PyDict) (k : String)
    (h : (d.lookup k).isSome) : d.isEmpty = false := by
  cases d with
  | nil => simp [List.lookup] at h
  | cons hd tl => rfl

/-- On an invoice-shaped dictionary without the error marker, the router
computes exactly the invoice rule family's reasons (shared helper). -/
theorem routerReasons_invoice (d : PyDict)
    (hinv : (d.lookup "total_amount").isSome)
    (herr : d.lookup "error" = Option.none) :
    routerReasons (some d) = .ok (invoiceReasons d) := by
  have hne := isEmpty_false_of_lookup_isSome d "total_amount" hinv
  simp [routerReasons, dataInvalid, hne, herr, hinv]

/-- A parsed amount strictly above the threshold is truthy (shared helper). -/
theorem truthy_of_parseAmount_gt (v : PyVal) (q : Rat)
    (hp : parseAmount v = some q) (hq : 1000 < q) : truthy v = true := by
  cases v with
  | none => simp [parseAmount] at hp
  | bool b => simp [parseAmount] at hp
  | num r =>
    simp only [parseAmount, Option.some.injEq] at hp
    subst hp
    simp only [truthy, Bool.not_eq_true', beq_eq_false_iff_ne, ne_eq]
    intro h
    subst h
    norm_num at hq
  | str s =>
    simp only [truthy, Bool.not_eq_true', beq_eq_false_iff_ne, ne_eq]
    intro h
    subst h
    simp [parseAmount, pyFloatParse, stripCurrency, trimChars,
      parseMantissaExp, parseMantissa] at hp

/-- C2 counterexample: invoice with `total_amount = ""` — the stripped
amount fails to parse as a number, yet the router computes no
invalid-amount-format reason at all (the falsy amount skips the amount
check) and the document finalizes instead of ending in review. -/
theorem invoice_empty_amount_no_invalid_format_reason :
    pyFloatParse (stripCurrency "") = Option.none ∧
    routerReasons (some [("vendor_name", .str "Acme"), ("invoice_id", .str "INV-1"),
                         ("total_amount", .str "")]) = .ok [] ∧
    routerDecision (some [("vendor_name", .str "Acme"), ("invoice_id", .str "INV-1"),
                          ("total_amount", .str "")]) = .ok "finalize" := by
  refine ⟨by decide, by decide, by decide⟩

/-- C2 amended: for invoice-shaped extracted_data (key `total_amount`
present, no `error` key) the router's reasons contain the missing-vendor
reason iff `vendor_name` is falsy, the missing-invoice-ID reason iff
`invoice_id` is falsy, the threshold reason iff the amount parses (after
stripping `$`/`,`) to a number strictly greater than 1000, and the
invalid-format reason iff the amount is truthy and fails to parse; a fresh
run over such data with a nonempty reasons list ends in `pending_review`
provided the amount is falsy or parsable (a truthy unparsable amount
instead crashes the await-review node). -/
theorem invoice_reasons_characterization
    (d : PyDict) (id content t1 t2 t3 t4 : String)
    (hinv : (d.lookup "total_amount").isSome)
    (herr : d.lookup "error" = Option.none) :
    routerReasons (some d) = .ok (invoiceReasons d) ∧
    ("Missing vendor name" ∈ invoiceReasons d ↔ ¬ truthy (getOrNone d "vendor_name")) ∧
    ("Missing invoice ID" ∈ invoiceReasons d ↔ ¬ truthy (getOrNone d "invoice_id")) ∧
    ("Amount exceeds $1000 threshold" ∈ invoiceReasons d ↔
      ∃ q, parseAmount (getOrNone d "total_amount") = some q ∧ 1000 < q) ∧
    ("Invalid amount format" ∈ invoiceReasons d ↔
      (truthy (getOrNone d "total_amount") = true ∧
        parseAmount (getOrNone d "total_amount") = Option.none)) ∧
    (invoiceReasons d ≠ [] →
      (truthy (getOrNone d "total_amount") = true →
        parseAmount (getOrNone d "total_amount") ≠ Option.none) →
      ∃ s, runFromOutcome id content (.parsed d) t1 t2 t3 t4 = .ok s ∧
        s.status = "pending_review") := by
  refine ⟨routerReasons_invoice d hinv herr, ?_, ?_, ?_, ?_, ?_⟩
  · by_cases hv : truthy (getOrNone d "vendor_name") <;>
      by_cases hi : truthy (getOrNone d "invoice_id") <;>
      by_cases ha : truthy (getOrNone d "total_amount") <;>
      cases hp : parseAmount (getOrNone d "total_amount") <;>
      simp [invoiceReasons, hv, hi, ha, hp]
  · by_cases hv : truthy (getOrNone d "vendor_name") <;>
      by_cases hi : truthy (getOrNone d "invoice_id") <;>
      by_cases ha : truthy (getOrNone d "total_amount") <;>
      cases hp : parseAmount (getOrNone d "total_amount") <;>
      simp [invoiceReasons, hv, hi, ha, hp]
  · constructor
    · intro hmem
      by_cases ha : truthy (getOrNone d "total_amount")
      · cases hp : parseAmount (getOrNone d "total_amount") with
        | none => simp [invoiceReasons, ha, hp] at hmem
        | some q =>
          refine ⟨q, rfl, ?_⟩
          by_contra hq
          push_neg at hq
          simp [invoiceReasons, ha, hp, hq] at hmem
      · simp [invoiceReasons, ha] at hmem
    · rintro ⟨q, hp, hq⟩
      have ha := truthy_of_parseAmount_gt _ q hp hq
      have hnle : ¬ q ≤ 1000 := not_le.mpr hq
      simp [invoiceReasons, ha, hp, hnle]
  · constructor
    · intro hmem
      by_cases ha : truthy (getOrNone d "total_amount")
      · cases hp : parseAmount (getOrNone d "total_amount") with
        | none => exact ⟨ha, rfl⟩
        | some q =>
          exfalso
          by_cases hle : q ≤ 1000 <;>
            simp [invoiceReasons, ha, hp, hle] at hmem
      · exfalso
        simp [invoiceReasons, ha] at hmem
    · rintro ⟨ha, hp⟩
      simp [invoiceReasons, ha, hp]
  · intro hne hok
    have hr2 : routerReasons (some d) = .ok (invoiceReasons d) :=
      routerReasons_invoice d hinv herr
    have hdec : routerDecision (some d) = .ok "await_human_review" := by
      simp only [routerDecision, hr2, Except.map]
      cases hcase : invoiceReasons d with
      | nil => exact absurd hcase hne
      | cons a l => simp
    have hne2 := isEmpty_false_of_lookup_isSome d "total_amount" hinv
    obtain ⟨rs, hrs⟩ : ∃ rs, awaitReasons (some d) = .ok rs := by
      cases hA : awaitReasons (some d) with
      | ok rs => exact ⟨rs, rfl⟩
      | error e =>
        exfalso
        by_cases ha : truthy (getOrNone d "total_amount")
        · cases hp : parseAmount (getOrNone d "total_amount") with
          | none => exact (hok ha) hp
          | some q => simp [awaitReasons, dataInvalid, hne2, herr, hinv, ha, hp] at hA
        · simp [awaitReasons, dataInvalid, hne2, herr, hinv, ha] at hA
    have hs2 : (extract_data_node (intake_node (initialState id content t1) t2)
        (.parsed d) t3).extracted_data = some d := rfl
    have hnode : ∃ s', await_human_review_node
        (extract_data_node (intake_node (initialState id content t1) t2) (.parsed d) t3) t4
        = .ok s' ∧ s'.status = "pending_review" := by
      simp only [await_human_review_node, hs2, hrs, Except.map]
      exact ⟨_, rfl, rfl⟩
    obtain ⟨s', hok', hst⟩ := hnode
    refine ⟨s', ?_, hst⟩
    simp only [runFromOutcome, hs2]
    rw [hdec]
    simpa using hok'

/-- Witness for C2 amended: invoice with amount `$5,000` and missing
vendor/ID fields present — threshold reason appears, run suspends. -/
theorem invoice_reasons_characterization_witness :
    routerReasons (some [("total_amount", .str "$5,000"), ("vendor_name", .str "Acme"),
                         ("invoice_id", .str "INV-2")])
      = .ok (invoiceReasons [("total_amount", .str "$5,000"), ("vendor_name", .str "Acme"),
                             ("invoice_id", .str "INV-2")]) ∧
    ("Amount exceeds $1000 threshold" ∈
      invoiceReasons [("total_amount", .str "$5,000"), ("vendor_name", .str "Acme"),
                      ("invoice_id", .str "INV-2")] ↔
      ∃ q, parseAmount (getOrNone [("total_amount", .str "$5,000"), ("vendor_name", .str "Acme"),
                                   ("invoice_id", .str "INV-2")] "total_amount") = some q ∧
        1000 < q) :=
  let d : PyDict := [("total_amount", .str "$5,000"), ("vendor_name", .str "Acme"),
                     ("invoice_id", .str "INV-2")]
  let h := invoice_reasons_characterization d "doc-2" "INVOICE" "t1" "t2" "t3" "t4"
    (by decide) (by decide)
  ⟨h.1, h.2.2.2.1⟩

/-- C3 (code bug): the validation router is not total.  On ticket-shaped
data whose `topic` field is `null` — a value the extraction prompt itself
declares possible ("If you cannot find a field, set it to null") —
`extracted_data.get("topic", "").lower()` raises `AttributeError` in both
the engine router and the AG-UI router instead of returning a decision. -/
theorem validation_router_not_total_on_null_topic :
    routerDecision (some [("sentiment", .str "happy"), ("topic", PyVal.none)])
      = .error "AttributeError: object has no attribute lower" ∧
    aguiValidationRouter (some [("sentiment", .str "happy"), ("topic", PyVal.none)])
      = .error "AttributeError: object has no attribute lower" := by
  refine ⟨by decide, by decide⟩

/-- C7 counterexample: on ticket-shaped data whose `sentiment` is `null`,
the claim predicts that neither ticket rule contributes a reason (null is
not "irate" and there is no topic), so the router should return a
decision with no ticket reasons; instead `None.lower()` raises
`AttributeError` and no decision is returned. -/
theorem ticket_null_sentiment_router_raises :
    routerDecision (some [("sentiment", PyVal.none)])
      = .error "AttributeError: object has no attribute lower" := by decide

/-- C7 amended: for ticket-shaped extracted_data (key `sentiment` present
with a string value, no `total_amount`, no `error`, and `topic` absent or
string-valued), the router's reasons contain the irate reason iff
`sentiment` lowercases to "irate", the security reason iff `topic`
contains "security" or "vulnerability" case-insensitively, nothing else,
and the decision is `await_human_review` iff one of the two fired. -/
theorem ticket_reasons_characterization
    (d : PyDict) (sv : String)
    (hs : d.lookup "sentiment" = some (.str sv))
    (hno : d.lookup "total_amount" = Option.none)
    (herr : d.lookup "error" = Option.none)
    (htopic : d.lookup "topic" = Option.none ∨ ∃ tv, d.lookup "topic" = some (.str tv)) :
    ∃ rs tv, routerReasons (some d) = .ok rs ∧ getOrEmpty d "topic" = PyVal.str tv ∧
      ("Customer sentiment is irate" ∈ rs ↔ pyToLower sv = "irate") ∧
      ("Security-related issue" ∈ rs ↔
        (strContains (pyToLower tv) "security" || strContains (pyToLower tv) "vulnerability") = true) ∧
      (∀ r ∈ rs, r = "Customer sentiment is irate" ∨ r = "Security-related issue") ∧
      (routerDecision (some d) = .ok "await_human_review" ↔ rs ≠ []) := by
  have hne := isEmpty_false_of_lookup_isSome d "sentiment" (by simp [hs])
  obtain ⟨tv, htv⟩ : ∃ tv, getOrEmpty d "topic" = PyVal.str tv := by
    rcases htopic with h | ⟨tv, h⟩
    · exact ⟨"", by simp [getOrEmpty, h]⟩
    · exact ⟨tv, by simp [getOrEmpty, h]⟩
  have hsent : getOrEmpty d "sentiment" = PyVal.str sv := by simp [getOrEmpty, hs]
  have hr : routerReasons (some d) = ticketReasons d := by
    simp [routerReasons, dataInvalid, hne, herr, hno, hs]
  have htr : ticketReasons d
      = .ok ((if pyToLower sv == "irate" then ["Customer sentiment is irate"] else []) ++
             (if strContains (pyToLower tv) "security" || strContains (pyToLower tv) "vulnerability"
              then ["Security-related issue"] else [])) := by
    simp [ticketReasons, hsent, htv, pyLower, Except.bind, Bind.bind, Except.instMonad,
      Except.pure]
  refine ⟨_, tv, hr.trans htr, htv, ?_, ?_, ?_, ?_⟩ <;>
    by_cases hb : pyToLower sv = "irate" <;>
    by_cases hc : (strContains (pyToLower tv) "security" ||
      strContains (pyToLower tv) "vulnerability") = true <;>
    simp [routerDecision, hr, htr, hb, hc, beq_iff_eq, Except.map]

/-- Witness for C7 amended: `sentiment = "Irate"`, `topic = "billing"` —
the irate reason fires and the decision is `await_human_review`. -/
theorem ticket_reasons_characterization_witness :
    ∃ rs tv, routerReasons (some [("sentiment", .str "Irate"), ("topic", .str "billing")]) = .ok rs ∧
      getOrEmpty [("sentiment", .str "Irate"), ("topic", .str "billing")] "topic" = PyVal.str tv ∧
      ("Customer sentiment is irate" ∈ rs ↔ pyToLower "Irate" = "irate") ∧
      ("Security-related issue" ∈ rs ↔
        (strContains (pyToLower tv) "security" || strContains (pyToLower tv) "vulnerability") = true) ∧
      (∀ r ∈ rs, r = "Customer sentiment is irate" ∨ r = "Security-related issue") ∧
      (routerDecision (some [("sentiment", .str "Irate"), ("topic", .str "billing")])
        = .ok "await_human_review" ↔ rs ≠ []) :=
  ticket_reasons_characterization [("sentiment", .str "Irate"), ("topic", .str "billing")]
    "Irate" (by decide) (by decide) (by decide) (Or.inr ⟨"billing", by decide⟩)

/-- C9: for invoice-shaped extracted_data whose `total_amount` is a truthy
string failing to parse after stripping `$`/`,`, the router classifies the
document as needing review, but the await-review node's unguarded float
conversion raises `ValueError`, so a fresh run crashes inside the node
instead of suspending in `pending_review`. -/
theorem truthy_unparsable_amount_crashes_await
    (d : PyDict) (a : String) (id content t1 t2 t3 t4 : String)
    (hamt : d.lookup "total_amount" = some (.str a))
    (ha : a ≠ "")
    (hp : pyFloatParse (stripCurrency a) = Option.none)
    (herr : d.lookup "error" = Option.none) :
    routerDecision (some d) = .ok "await_human_review" ∧
    awaitReasons (some d) = .error "ValueError: could not convert string to float" ∧
    runFromOutcome id content (.parsed d) t1 t2 t3 t4
      = .error "ValueError: could not convert string to float" := by
  have hinv : (d.lookup "total_amount").isSome = true := by simp [hamt]
  have hne := isEmpty_false_of_lookup_isSome d "total_amount" hinv
  have hamtv : getOrNone d "total_amount" = PyVal.str a := by simp [getOrNone, hamt]
  have htr : truthy (PyVal.str a) = true := by simp [truthy, ha]
  have hpA : parseAmount (PyVal.str a) = Option.none := by simp [parseAmount, hp]
  have hC : invoiceReasons d
      = (if truthy (getOrNone d "vendor_name") = true then [] else ["Missing vendor name"]) ++
        ((if truthy (getOrNone d "invoice_id") = true then [] else ["Missing invoice ID"]) ++
         ["Invalid amount format"]) := by
    simp [invoiceReasons, hamtv, htr, hpA]
  have hdec : routerDecision (some d) = .ok "await_human_review" := by
    simp only [routerDecision, routerReasons_invoice d hinv herr, Except.map, hC]
    split <;> split <;> simp
  have hAwait : awaitReasons (some d)
      = .error "ValueError: could not convert string to float" := by
    simp [awaitReasons, dataInvalid, hne, herr, hinv, hamtv, htr, hpA]
  refine ⟨hdec, hAwait, ?_⟩
  have hs2 : (extract_data_node (intake_node (initialState id content t1) t2)
      (.parsed d) t3).extracted_data = some d := rfl
  simp only [runFromOutcome, hs2]
  rw [hdec]
  simp [await_human_review_node, hs2, hAwait, Except.map]

/-- Witness for C9: amount `"N/A"` — routed to review, node raises. -/
theorem truthy_unparsable_amount_crashes_await_witness :
    routerDecision (some [("total_amount", .str "N/A"), ("vendor_name", .str "Acme"),
                          ("invoice_id", .str "I-9")]) = .ok "await_human_review" ∧
    awaitReasons (some [("total_amount", .str "N/A"), ("vendor_name", .str "Acme"),
                        ("invoice_id", .str "I-9")])
      = .error "ValueError: could not convert string to float" ∧
    runFromOutcome "doc-9" "INVOICE"
      (.parsed [("total_amount", .str "N/A"), ("vendor_name", .str "Acme"),
                ("invoice_id", .str "I-9")]) "t1" "t2" "t3" "t4"
      = .error "ValueError: could not convert string to float" :=
  truthy_unparsable_amount_crashes_await
    [("total_amount", .str "N/A"), ("vendor_name", .str "Acme"), ("invoice_id", .str "I-9")]
    "N/A" "doc-9" "INVOICE" "t1" "t2" "t3" "t4"
    (by decide) (by decide) (by decide) (by decide)

/-- C4 counterexample: resuming a run whose latest checkpoint is
`finalized` while supplying corrections is not rejected and is not
mutation-free — the checkpoint list grows by one merged state and a state
(not an error) is handed back to the caller. -/
theorem resume_mutates_finalized_run :
    (resume_workflow [exFinalized] .done (some [("total_amount", PyVal.num 900)])
        "t5" "t6").1 ≠ [exFinalized] ∧
    (resume_workflow [exFinalized] .done (some [("total_amount", PyVal.num 900)])
        "t5" "t6").2.2 ≠ Option.none := by
  refine ⟨by decide, by decide⟩

/-- C4 amended: `resume_workflow` makes no status check.  With no stored
checkpoint it reports an error (`None`) and performs no mutation, for any
corrections; but on a run whose graph has completed (so not in
`pending_review`), resume without corrections returns the latest state
unchanged with no error, and resume with corrections merges them, appends
a history entry and writes a new checkpoint. -/
theorem resume_guard_behavior
    (point : RunPoint) (updated : Option PyDict) (t t2 : String)
    (cps : List WorkflowState) (s : WorkflowState) (u : PyDict)
    (hlast : cps.getLast? = some s) :
    resume_workflow [] point updated t t2 = ([], point, Option.none) ∧
    resume_workflow cps .done Option.none t t2 = (cps, .done, some s) ∧
    resume_workflow cps .done (some u) t t2
      = (cps ++ [mergeCorrections s u t], .done, some (mergeCorrections s u t)) := by
  refine ⟨rfl, ?_, ?_⟩ <;> simp [resume_workflow, hlast]

/-- Witness for C4 amended, at the concrete finalized run. -/
theorem resume_guard_behavior_witness :
    resume_workflow [] .afterAwait (some [("x", PyVal.num 1)]) "t5" "t6"
      = ([], .afterAwait, Option.none) ∧
    resume_workflow [exFinalized] .done Option.none "t5" "t6"
      = ([exFinalized], .done, some exFinalized) ∧
    resume_workflow [exFinalized] .done (some [("x", PyVal.num 1)]) "t5" "t6"
      = ([exFinalized] ++ [mergeCorrections exFinalized [("x", PyVal.num 1)] "t5"], .done,
         some (mergeCorrections exFinalized [("x", PyVal.num 1)] "t5")) :=
  resume_guard_behavior .afterAwait (some [("x", PyVal.num 1)]) "t5" "t6"
    [exFinalized] exFinalized [("x", PyVal.num 1)] (by decide)

/-- C5: resuming a suspended run with no corrections, when its data still
fails validation, re-runs the await node: the run is `pending_review`
again, the reason is recomputed from the unchanged data, exactly one new
history entry is appended, and exactly one new checkpoint is written. -/
theorem resume_no_corrections_still_failing
    (cps : List WorkflowState) (s s0 : WorkflowState) (t0 t t2 : String)
    (hlast : cps.getLast? = some s)
    (hsusp : await_human_review_node s0 t0 = .ok s)
    (hfail : routerDecision s.extracted_data = .ok "await_human_review") :
    ∃ s' rs, await_human_review_node s t2 = .ok s' ∧
      resume_workflow cps .afterAwait Option.none t t2
        = (cps ++ [s'], .afterAwait, some s') ∧
      s'.status = "pending_review" ∧
      awaitReasons s.extracted_data = .ok rs ∧
      s'.reason_for_review
        = some (if rs.isEmpty then "Unknown validation issue" else joinSemicolon rs) ∧
      s'.workflow_history = s.workflow_history ++
        ["Workflow paused for human review at " ++ t2 ++ ": " ++
          (if rs.isEmpty then "Unknown validation issue" else joinSemicolon rs)] := by
  have hed : s.extracted_data = s0.extracted_data := by
    cases hA0 : awaitReasons s0.extracted_data with
    | error e => simp [await_human_review_node, hA0, Except.map] at hsusp
    | ok rs0 =>
      simp only [await_human_review_node, hA0, Except.map, Except.ok.injEq] at hsusp
      rw [← hsusp]
  obtain ⟨rs0, hA⟩ : ∃ rs0, awaitReasons s.extracted_data = .ok rs0 := by
    cases hA0 : awaitReasons s0.extracted_data with
    | error e => simp [await_human_review_node, hA0, Except.map] at hsusp
    | ok rs0 => exact ⟨rs0, by rw [hed, hA0]⟩
  obtain ⟨s', hnode⟩ : ∃ s', await_human_review_node s t2 = .ok s' := by
    simp only [await_human_review_node, hA, Except.map]
    exact ⟨_, rfl⟩
  have hfields : s'.status = "pending_review" ∧
      s'.reason_for_review
        = some (if rs0.isEmpty then "Unknown validation issue" else joinSemicolon rs0) ∧
      s'.workflow_history = s.workflow_history ++
        ["Workflow paused for human review at " ++ t2 ++ ": " ++
          (if rs0.isEmpty then "Unknown validation issue" else joinSemicolon rs0)] := by
    simp only [await_human_review_node, hA, Except.map, Except.ok.injEq] at hnode
    rw [← hnode]
    exact ⟨rfl, rfl, rfl⟩
  refine ⟨s', rs0, hnode, ?_, hfields.1, hA, hfields.2.1, hfields.2.2⟩
  simp only [resume_workflow, hlast, hfail]
  simp [hnode]

/-- Witness for C5: the suspended irate ticket, resumed with no
corrections, suspends again with one new history entry. -/
theorem resume_no_corrections_still_failing_witness :
    ∃ s' rs, await_human_review_node exTicketSuspended "t6" = .ok s' ∧
      resume_workflow [exTicketSuspended] .afterAwait Option.none "t5" "t6"
        = ([exTicketSuspended] ++ [s'], .afterAwait, some s') ∧
      s'.status = "pending_review" ∧
      awaitReasons exTicketSuspended.extracted_data = .ok rs ∧
      s'.reason_for_review
        = some (if rs.isEmpty then "Unknown validation issue" else joinSemicolon rs) ∧
      s'.workflow_history = exTicketSuspended.workflow_history ++
        ["Workflow paused for human review at " ++ "t6" ++ ": " ++
          (if rs.isEmpty then "Unknown validation issue" else joinSemicolon rs)] :=
  resume_no_corrections_still_failing [exTicketSuspended] exTicketSuspended
    exTicketProcessing "ta" "t5" "t6" (by decide) (by decide) (by decide)

/-- The router short-circuits on the error marker, and a run carrying it
suspends in review (shared helper for C6). -/
theorem run_with_error_marker (id content t1 t2 t3 t4 : String)
    (outcome : ExtractionOutcome) (d : PyDict)
    (hd : (extract_data_node (intake_node (initialState id content t1) t2) outcome t3).extracted_data
      = some d)
    (herr : (d.lookup "error").isSome = true) :
    routerDecision (some d) = .ok "await_human_review" ∧
    ∃ s, runFromOutcome id content outcome t1 t2 t3 t4 = .ok s ∧
      s.status = "pending_review" := by
  have hr : routerReasons (some d) = .ok ["Missing or invalid data"] := by
    simp [routerReasons, dataInvalid, herr]
  have hdec : routerDecision (some d) = .ok "await_human_review" := by
    simp [routerDecision, hr, Except.map]
  have hA : awaitReasons (some d) = .ok ["Missing or invalid extracted data"] := by
    simp [awaitReasons, dataInvalid, herr]
  refine ⟨hdec, ?_⟩
  have hnode : ∃ s', await_human_review_node
      (extract_data_node (intake_node (initialState id content t1) t2) outcome t3) t4
      = .ok s' ∧ s'.status = "pending_review" := by
    simp only [await_human_review_node, hd, hA, Except.map]
    exact ⟨_, rfl, rfl⟩
  obtain ⟨s', hok', hst⟩ := hnode
  refine ⟨s', ?_, hst⟩
  simp only [runFromOutcome, hd]
  rw [hdec]
  simpa using hok'

/-- C6: when extraction fails (a raised exception or unparsable LLM
output), the failure is recorded as the `"error"` marker key in
`extracted_data`, the router short-circuits to `await_human_review` with
the fixed reason `"Missing or invalid data"` before any rule family runs
(for any dictionary carrying the marker), and the run does not crash: it
ends suspended in `pending_review`. -/
theorem extraction_failure_short_circuits
    (id content t1 t2 t3 t4 : String) (outcome : ExtractionOutcome)
    (hfail : outcome = .unparsable ∨ ∃ e, outcome = .exception e) :
    (∀ d : PyDict, (d.lookup "error").isSome →
      routerReasons (some d) = .ok ["Missing or invalid data"]) ∧
    ∃ d, (extract_data_node (intake_node (initialState id content t1) t2) outcome t3).extracted_data
        = some d ∧
      (d.lookup "error").isSome = true ∧
      routerDecision (some d) = .ok "await_human_review" ∧
      ∃ s, runFromOutcome id content outcome t1 t2 t3 t4 = .ok s ∧
        s.status = "pending_review" := by
  refine ⟨fun d h => by simp [routerReasons, dataInvalid, h], ?_⟩
  rcases hfail with h | ⟨e, h⟩ <;> subst h
  · obtain ⟨hdec, hrun⟩ := run_with_error_marker id content t1 t2 t3 t4 .unparsable
      [("error", .str "Failed to parse LLM response as JSON")] rfl (by decide)
    exact ⟨_, rfl, by decide, hdec, hrun⟩
  · obtain ⟨hdec, hrun⟩ := run_with_error_marker id content t1 t2 t3 t4 (.exception e)
      [("error", .str ("Error during extraction: " ++ e))] rfl (by simp [List.lookup])
    exact ⟨_, rfl, by simp [List.lookup], hdec, hrun⟩

/-- Witness for C6: an extraction exception `"boom"` — the run suspends. -/
theorem extraction_failure_short_circuits_witness :
    (∀ d : PyDict, (d.lookup "error").isSome →
      routerReasons (some d) = .ok ["Missing or invalid data"]) ∧
    ∃ d, (extract_data_node (intake_node (initialState "doc-6" "DOC" "t1") "t2")
          (.exception "boom") "t3").extracted_data = some d ∧
      (d.lookup "error").isSome = true ∧
      routerDecision (some d) = .ok "await_human_review" ∧
      ∃ s, runFromOutcome "doc-6" "DOC" (.exception "boom") "t1" "t2" "t3" "t4" = .ok s ∧
        s.status = "pending_review" :=
  extraction_failure_short_circuits "doc-6" "DOC" "t1" "t2" "t3" "t4"
    (.exception "boom") (Or.inr ⟨"boom", rfl⟩)

/-- C8: the validation router mutates nothing — the state it leaves behind
is the input state, every field included — and its decision depends only
on `extracted_data`: two states with equal `extracted_data` receive equal
decisions. -/
theorem validation_router_pure (s t : WorkflowState)
    (h : s.extracted_data = t.extracted_data) :
    (∀ dec s', validation_router s = .ok (dec, s') → s' = s) ∧
    (validation_router s).map Prod.fst = (validation_router t).map Prod.fst := by
  constructor
  · intro dec s' hok
    cases hr : routerDecision s.extracted_data with
    | error e => simp [validation_router, hr, Except.map] at hok
    | ok dcc =>
      simp only [validation_router, hr, Except.map, Except.ok.injEq, Prod.mk.injEq] at hok
      exact hok.2.symm
  · simp only [validation_router, h]
    cases routerDecision t.extracted_data <;> simp [Except.map]

/-- Witness for C8 at two concrete states sharing extracted_data. -/
theorem validation_router_pure_witness :
    (∀ dec s', validation_router exTicketSuspended = .ok (dec, s') →
      s' = exTicketSuspended) ∧
    (validation_router exTicketSuspended).map Prod.fst
      = (validation_router exTicketProcessing).map Prod.fst :=
  validation_router_pure exTicketSuspended exTicketProcessing (by decide)

/-- C10 counterexample: in the backend `validate_data`, a dump containing
both a `total_amount` key (with value `None`) and a `sentiment` key
(`"Irate"`), and no `error` key, evaluates the ticket rules — the irate
reason appears, contradicting strict invoice precedence by key presence. -/
theorem validate_data_null_amount_ticket_reason :
    (List.lookup "total_amount"
      (modelDump { total_amount := Option.none, sentiment := some "Irate",
                   topic := some "billing" })).isSome = true ∧
    (List.lookup "sentiment"
      (modelDump { total_amount := Option.none, sentiment := some "Irate",
                   topic := some "billing" })).isSome = true ∧
    List.lookup "error"
      (modelDump { total_amount := Option.none, sentiment := some "Irate",
                   topic := some "billing" }) = Option.none ∧
    validate_data (some { total_amount := Option.none, sentiment := some "Irate",
                          topic := some "billing" })
      = .ok { is_valid := false, needs_review := true,
              reasons := ["Customer sentiment is irate"], auto_approved := false,
              validation_rules_applied := ["support_ticket_validation"] } := by
  refine ⟨by decide, by decide, by decide, by decide⟩

/-- C10 amended: in the engine router, key presence of `total_amount`
gives the invoice family strict precedence — only invoice reasons can be
produced, an irate sentiment or security topic never contributes, and a
fresh run finalizes when the invoice checks pass.  (In the backend
`validate_data` the precedence test is `total_amount is not None`, so a
null amount with an irate sentiment evaluates the ticket rules instead —
see the counterexample.) -/
theorem invoice_precedence_engine_router
    (d : PyDict) (id content t1 t2 t3 t4 : String)
    (hinv : (d.lookup "total_amount").isSome)
    (herr : d.lookup "error" = Option.none) :
    routerReasons (some d) = .ok (invoiceReasons d) ∧
    (∀ r ∈ invoiceReasons d, r = "Missing vendor name" ∨ r = "Missing invoice ID" ∨
      r = "Amount exceeds $1000 threshold" ∨ r = "Invalid amount format") ∧
    "Customer sentiment is irate" ∉ invoiceReasons d ∧
    "Security-related issue" ∉ invoiceReasons d ∧
    (invoiceReasons d = [] →
      ∃ s, runFromOutcome id content (.parsed d) t1 t2 t3 t4 = .ok s ∧
        s.status = "finalized") := by
  have hbound : ∀ r ∈ invoiceReasons d, r = "Missing vendor name" ∨ r = "Missing invoice ID" ∨
      r = "Amount exceeds $1000 threshold" ∨ r = "Invalid amount format" := by
    by_cases hv : truthy (getOrNone d "vendor_name") <;>
      by_cases hi : truthy (getOrNone d "invoice_id") <;>
      by_cases ha : truthy (getOrNone d "total_amount") <;>
      cases hp : parseAmount (getOrNone d "total_amount") <;>
      simp [invoiceReasons, hv, hi, ha, hp]
  refine ⟨routerReasons_invoice d hinv herr, hbound, ?_, ?_, ?_⟩
  · intro hmem
    rcases hbound _ hmem with h | h | h | h <;> simp at h
  · intro hmem
    rcases hbound _ hmem with h | h | h | h <;> simp at h
  · intro hS
    have hdec : routerDecision (some d) = .ok "finalize" := by
      simp [routerDecision, routerReasons_invoice d hinv herr, hS, Except.map]
    have hs2 : (extract_data_node (intake_node (initialState id content t1) t2)
        (.parsed d) t3).extracted_data = some d := rfl
    refine ⟨finalize_node (extract_data_node (intake_node (initialState id content t1) t2)
      (.parsed d) t3) t4, ?_, rfl⟩
    simp only [runFromOutcome, hs2]
    rw [hdec]
    simp

/-- Witness for C10 amended: invoice fields complete and an irate
sentiment also present — the run still finalizes. -/
theorem invoice_precedence_engine_router_witness :
    "Customer sentiment is irate" ∉
      invoiceReasons [("total_amount", .str "$800"), ("vendor_name", .str "Acme"),
                      ("invoice_id", .str "I1"), ("sentiment", .str "Irate")] ∧
    (invoiceReasons [("total_amount", .str "$800"), ("vendor_name", .str "Acme"),
                     ("invoice_id", .str "I1"), ("sentiment", .str "Irate")] = [] →
      ∃ s, runFromOutcome "doc-10" "INVOICE"
          (.parsed [("total_amount", .str "$800"), ("vendor_name", .str "Acme"),
                    ("invoice_id", .str "I1"), ("sentiment", .str "Irate")])
          "t1" "t2" "t3" "t4" = .ok s ∧
        s.status = "finalized") :=
  let h := invoice_precedence_engine_router
    [("total_amount", .str "$800"), ("vendor_name", .str "Acme"),
     ("invoice_id", .str "I1"), ("sentiment", .str "Irate")]
    "doc-10" "INVOICE" "t1" "t2" "t3" "t4" (by decide) (by decide)
  ⟨h.2.2.1, h.2.2.2.2⟩

end WorkflowEngine
